import Mathlib

/-!
A shallow embedding of the `Debugger` engine of
`modules/nuclide-debugger-cli/lib/Debugger.js` (the interactive CLI debugger
front-end driving Debug Adapter Protocol back-ends), together with proofs about
its breakpoint reconciliation, session state machine and event handlers.

The engine's collaborators (`BreakpointCollection`, `Breakpoint`,
`ThreadCollection`, `Thread`) are imported by Debugger.js but their sources are
not part of the supplied tree; the few operations of theirs that the engine
calls are modelled from the specification's component contracts and are marked
`Modelled from the spec:` in their doc comments.  Asynchronous adapter
responses are passed in as explicit `Except`/list arguments, and the engine's
observable side effects (console calls, adapter requests, process exit,
relaunch) are reified as `Action`/`Request` values in the order the source
performs them.
-/

namespace NuclideCli

/-- Session lifecycle states, from the `SessionState` union type of Debugger.js. -/
inductive SessionState
  | INITIALIZING
  | CONFIGURING
  | RUNNING
  | STOPPED
  | TERMINATED
deriving DecidableEq, Repr

/-- Breakpoint enablement states (`BreakpointState` of Breakpoint.js: the spec's
`state ∈ {enabled, disabled, once}`). -/
inductive BreakpointState
  | ENABLED
  | DISABLED
  | ONCE
deriving DecidableEq, Repr

/-- A user breakpoint, after the spec's data model (§3): stable user-facing `index`,
optional adapter-assigned `id`, source location (`path`+`line`) or function name
(`func`), `state`, `verified`, optional adapter `message`. -/
structure Breakpoint where
  index : Nat
  id : Option Nat := none
  verified : Bool := false
  message : Option String := none
  path : Option String := none
  line : Option Nat := none
  func : Option String := none
  state : BreakpointState := BreakpointState.ENABLED
deriving DecidableEq, Repr

/-- One element of an adapter `setBreakpoints`/`setFunctionBreakpoints` response
(`DebugProtocol.Breakpoint`).  All fields the source reads are kept optional the
way the source guards them (`id != null`, `verified != null`, truthy `source`
with non-null `path`, non-null `line`); a response with no `source` object and
one whose source lacks a `path` behave identically in `_updateBreakpoint`, so
both are `sourcePath = none`. -/
structure AdapterBreakpoint where
  id : Option Nat := none
  verified : Option Bool := none
  message : Option String := none
  sourcePath : Option String := none
  line : Option Nat := none
deriving DecidableEq, Repr

/-- A thread value object, after the spec's data model (§3/§4.B). -/
structure Thread where
  id : Nat
  name : String
  stopped : Bool := false
  selectedFrame : Nat := 0
deriving DecidableEq, Repr

/-- Adapter requests the engine issues while manipulating breakpoints. -/
inductive Request
  | setBreakpoints (path : String) (lines : List Nat)
  | setFunctionBreakpoints (names : List String)
deriving DecidableEq, Repr

/-- Observable side effects of the engine, in the order the source performs them:
console gating and output, the relaunch call, process exit, the `pause` request,
the `_resetAllBreakpoints` call, and the registered commands' onStopped hooks. -/
inductive Action
  | startInput
  | stopInput
  | output (text : String)
  | outputLine (text : String)
  | relaunch
  | processExit (code : Nat)
  | pauseRequest (threadId : Nat)
  | resetAllBreakpoints
  | runOnStoppedHooks
deriving DecidableEq, Repr

/-- The engine fields the event handlers under proof read and write. -/
structure Engine where
  state : SessionState
  attachMode : Bool
  disconnecting : Bool
  threads : List Thread
  focusThreadId : Option Nat
  breakpoints : List Breakpoint
  stoppedAtBreakpoint : Option Breakpoint
deriving DecidableEq, Repr

/-- Helper: the filter the spec's collection contract uses (enabled-or-once). -/
def isEnabledOrOnce (b : Breakpoint) : Bool :=
  b.state == BreakpointState.ENABLED || b.state == BreakpointState.ONCE

/-- Modelled from the spec: `BreakpointCollection.getAllEnabledBreakpointsForSource`
(BreakpointCollection.js is not in the supplied sources).  Spec §4.E: the list of
enabled-or-once source breakpoints at `path`, ordered by their index; the
collection is kept as a list in index order, so `filter` preserves that order. -/
def getAllEnabledBreakpointsForSource (col : List Breakpoint) (path : String) : List Breakpoint :=
  col.filter fun b => b.func.isNone && b.path == some path && isEnabledOrOnce b

/-- Modelled from the spec: `BreakpointCollection.getAllEnabledFunctionBreakpoints`
(same filter, function breakpoints only). -/
def getAllEnabledFunctionBreakpoints (col : List Breakpoint) : List Breakpoint :=
  col.filter fun b => b.func.isSome && isEnabledOrOnce b

/-- Modelled from the spec: `Breakpoint.toggleState` (Breakpoint.js is not in the
supplied sources).  Spec §4.E: `toggleState()` flips enabled and disabled; once
collapses to disabled on toggle. -/
def toggleState : BreakpointState → BreakpointState
  | BreakpointState.ENABLED => BreakpointState.DISABLED
  | BreakpointState.DISABLED => BreakpointState.ENABLED
  | BreakpointState.ONCE => BreakpointState.DISABLED

/-- Embedding of `Debugger._updateBreakpoint`.  Returns the updated local
breakpoint together with the response element, whose `message` the source
overwrites in place when the breakpoint is unverified and no message was given.
The local breakpoint is updated through the collection setters keyed by its
unique `index` (`setBreakpointId`, `setBreakpointVerified`, `setPathAndFile`);
no setter for the local `message` exists, so the response message is never
stored on the local breakpoint. -/
def updateBreakpoint (lcl : Breakpoint) (remote : AdapterBreakpoint) :
    Breakpoint × AdapterBreakpoint :=
  let l1 :=
    match remote.id with
    | some theId =>
      let l := { lcl with id := some theId }
      match remote.verified with
      | some v => { l with verified := v }
      | none => l
    | none => { lcl with verified := true }
  let l2 :=
    if l1.func.isSome then
      match remote.sourcePath, remote.line with
      | some p, some ln => { l1 with path := some p, line := some ln }
      | _, _ => l1
    else l1
  let r2 :=
    if remote.verified != some true && (remote.message.isNone || remote.message == some "") then
      { remote with
        message := some "Could not set this breakpoint. The module may not have been loaded yet." }
    else remote
  (l2, r2)

/-- The collection-level effect of the `for (const [debuggerBreakpoint,
adapterBreakpoint] of paired)` loops of `_setSourceBreakpointsForPath`,
`_setFunctionBreakpoints` and `_resetAllBreakpoints`: each paired local
breakpoint, identified in the collection by its index, is updated in place. -/
def applyRemotePairs (col : List Breakpoint) (locals : List Breakpoint)
    (resp : List AdapterBreakpoint) : List Breakpoint :=
  (locals.zip resp).foldl
    (fun c lr => c.map fun b => if b.index == lr.1.index then (updateBreakpoint b lr.2).1 else b)
    col

/-- The per-pair view of the same loops: the i-th local breakpoint of the request
list after being updated with the i-th response element (`paired = localBreakpoints
.map((_, i) => [_, adapterBreakpoints[i]])` followed by `_updateBreakpoint` on each
pair; the paired locals are the collection members themselves). -/
def reconcilePairs (locals : List Breakpoint) (resp : List AdapterBreakpoint) :
    List Breakpoint :=
  (locals.zip resp).map fun lr => (updateBreakpoint lr.1 lr.2).1

/-- Embedding of `Debugger._setSourceBreakpointsForPath`.  The adapter's response
is passed in as `resp` (`Except.error` models a rejected request, in which case
the update loop never runs).  Returns the request it sent, and on success the
updated collection plus the response element paired with `indexOfInterest`
(after the in-place message concoction of `_updateBreakpoint`). -/
def setSourceBreakpointsForPath (col : List Breakpoint) (path : String)
    (indexOfInterest : Option Nat) (resp : Except Unit (List AdapterBreakpoint)) :
    Request × Except Unit (List Breakpoint × Option AdapterBreakpoint) :=
  let localBreakpoints := getAllEnabledBreakpointsForSource col path
  let req := Request.setBreakpoints path (localBreakpoints.map fun b => b.line.getD 0)
  match resp with
  | Except.error e => (req, Except.error e)
  | Except.ok adapterBreakpoints =>
    let col2 := applyRemotePairs col localBreakpoints adapterBreakpoints
    let pairedOut := (localBreakpoints.zip adapterBreakpoints).map
      fun lr => (lr.1.index, (updateBreakpoint lr.1 lr.2).2)
    let found := pairedOut.find? fun p => some p.1 == indexOfInterest
    (req, Except.ok (col2, found.map fun p => p.2))

/-- Embedding of `Debugger._setFunctionBreakpoints` (the variant with an index of
interest, used by `setFunctionBreakpoint`). -/
def setFunctionBreakpointsOp (col : List Breakpoint) (indexOfInterest : Nat)
    (resp : Except Unit (List AdapterBreakpoint)) :
    Request × Except Unit (List Breakpoint × Option AdapterBreakpoint) :=
  let funcBreakpoints := getAllEnabledFunctionBreakpoints col
  let req := Request.setFunctionBreakpoints (funcBreakpoints.map fun b => b.func.getD "")
  match resp with
  | Except.error e => (req, Except.error e)
  | Except.ok adapterBreakpoints =>
    let col2 := applyRemotePairs col funcBreakpoints adapterBreakpoints
    let pairedOut := (funcBreakpoints.zip adapterBreakpoints).map
      fun lr => (lr.1.index, (updateBreakpoint lr.1 lr.2).2)
    let found := pairedOut.find? fun p => p.1 == indexOfInterest
    (req, Except.ok (col2, found.map fun p => p.2))

/-- Embedding of `Debugger._resetAllFunctionBreakpoints`: a no-op unless the
adapter supports function breakpoints and at least one enabled function
breakpoint exists; otherwise one `setFunctionBreakpoints` request whose
response is reconciled pairwise. -/
def resetAllFunctionBreakpoints (col : List Breakpoint) (supportsFuncBp : Bool)
    (resp : Except Unit (List AdapterBreakpoint)) :
    List Request × Except Unit (List Breakpoint) :=
  let funcBreakpoints := getAllEnabledFunctionBreakpoints col
  if !supportsFuncBp || funcBreakpoints.isEmpty then ([], Except.ok col)
  else
    let req := Request.setFunctionBreakpoints (funcBreakpoints.map fun b => b.func.getD "")
    match resp with
    | Except.error e => ([req], Except.error e)
    | Except.ok adapterBreakpoints =>
      ([req], Except.ok (applyRemotePairs col funcBreakpoints adapterBreakpoints))

/-- Embedding of `Debugger._ensureDebugSession` given that a session object
exists (the engine under proof has one attached): it throws unless the state is
outside INITIALIZING/CONFIGURING or `allowBeforeLaunch` is set. -/
def ensureDebugSessionOk (state : SessionState) (allowBeforeLaunch : Bool) : Bool :=
  !((state == SessionState.INITIALIZING || state == SessionState.CONFIGURING)
      && !allowBeforeLaunch)

/-- Result of a breakpoint command: collection afterwards, adapter requests
issued, and whether an exception escaped to the dispatcher. -/
structure OpOutcome where
  col : List Breakpoint
  requests : List Request
  threw : Bool
deriving DecidableEq, Repr

/-- Embedding of `Debugger.toggleBreakpoint`.  The breakpoint argument is
identified by its index (the dispatcher passes the collection's own object, so
the `find?` miss case is unreachable).  `srcResp`/`funcResp` are the adapter's
responses for the source-path / function-breakpoint requests. -/
def toggleBreakpoint (sessionState : SessionState) (col : List Breakpoint) (bpIndex : Nat)
    (srcResp funcResp : Except Unit (List AdapterBreakpoint)) (supportsFuncBp : Bool) :
    OpOutcome :=
  if !ensureDebugSessionOk sessionState false then { col := col, requests := [], threw := true }
  else
    match col.find? (fun b => b.index == bpIndex) with
    | none => { col := col, requests := [], threw := false }
    | some bp =>
      let oldState := bp.state
      let col1 := col.map fun b =>
        if b.index == bpIndex then { b with state := toggleState b.state } else b
      match bp.path with
      | some path =>
        match setSourceBreakpointsForPath col1 path (some bpIndex) srcResp with
        | (req, Except.error _) =>
          { col := col1.map fun b => if b.index == bpIndex then { b with state := oldState } else b,
            requests := [req], threw := true }
        | (req, Except.ok (col2, _)) => { col := col2, requests := [req], threw := false }
      | none =>
        match resetAllFunctionBreakpoints col1 supportsFuncBp funcResp with
        | (reqs, Except.error _) => { col := col1, requests := reqs, threw := true }
        | (reqs, Except.ok col2) => { col := col2, requests := reqs, threw := false }

/-- Embedding of `Debugger.setBreakpointEnabled`: early return when the
breakpoint is not currently enabled; otherwise set the requested state and
re-send, rolling the state back if the source-path request fails. -/
def setBreakpointEnabled (sessionState : SessionState) (col : List Breakpoint) (bpIndex : Nat)
    (enabled : Bool) (srcResp funcResp : Except Unit (List AdapterBreakpoint))
    (supportsFuncBp : Bool) : OpOutcome :=
  if !ensureDebugSessionOk sessionState false then { col := col, requests := [], threw := true }
  else
    match col.find? (fun b => b.index == bpIndex) with
    | none => { col := col, requests := [], threw := false }
    | some bp =>
      if bp.state != BreakpointState.ENABLED then { col := col, requests := [], threw := false }
      else
        let oldState := bp.state
        let newState := if enabled then BreakpointState.ENABLED else BreakpointState.DISABLED
        let col1 := col.map fun b => if b.index == bpIndex then { b with state := newState } else b
        match bp.path with
        | some path =>
          match setSourceBreakpointsForPath col1 path (some bpIndex) srcResp with
          | (req, Except.error _) =>
            { col := col1.map fun b =>
                if b.index == bpIndex then { b with state := oldState } else b,
              requests := [req], threw := true }
          | (req, Except.ok (col2, _)) => { col := col2, requests := [req], threw := false }
        | none =>
          match resetAllFunctionBreakpoints col1 supportsFuncBp funcResp with
          | (reqs, Except.error _) => { col := col1, requests := reqs, threw := true }
          | (reqs, Except.ok col2) => { col := col2, requests := reqs, threw := false }

set_option linter.unusedVariables false in
/-- Embedding of `Debugger.setAllBreakpointsEnabled`: every breakpoint's state is
set to ENABLED (the `enabled` argument is not consulted by the source), then
`_resetAllBreakpoints` is invoked (reified as the returned flag). -/
def setAllBreakpointsEnabled (col : List Breakpoint) (enabled : Bool) :
    List Breakpoint × Bool :=
  (col.map fun b => { b with state := BreakpointState.ENABLED }, true)

/-- Modelled from the spec: `BreakpointCollection.addSourceBreakpoint`
(BreakpointCollection.js is not in the supplied sources).  Spec §4.E: assigns a
fresh index — the collection numbers breakpoints monotonically, so the caller
passes the next free index — initial state enabled (or once if requested),
verified false. -/
def addSourceBreakpoint (col : List Breakpoint) (nextIndex : Nat) (path : String)
    (line : Nat) (once : Bool) : List Breakpoint :=
  col ++ [{ index := nextIndex, path := some path, line := some line,
            state := if once then BreakpointState.ONCE else BreakpointState.ENABLED }]

/-- Modelled from the spec: `BreakpointCollection.addFunctionBreakpoint` (same
contract for a function-name breakpoint). -/
def addFunctionBreakpoint (col : List Breakpoint) (nextIndex : Nat) (func : String)
    (once : Bool) : List Breakpoint :=
  col ++ [{ index := nextIndex, func := some func,
            state := if once then BreakpointState.ONCE else BreakpointState.ENABLED }]

/-- Outcome of `setSourceBreakpoint`/`setFunctionBreakpoint`: collection
afterwards, adapter requests, and the returned `{index, message}` (or the
thrown error). -/
structure SetBpOutcome where
  col : List Breakpoint
  requests : List Request
  result : Except Unit (Nat × Option String)

/-- Embedding of `Debugger.setSourceBreakpoint`: reject `once` when unsupported,
add to the collection, and unless the state is CONFIGURING immediately re-send
the path's enabled breakpoints and take the returned message from the response
element for the new index. -/
def setSourceBreakpoint (sessionState : SessionState) (supportsOnce : Bool)
    (col : List Breakpoint) (nextIndex : Nat) (path : String) (line : Nat) (once : Bool)
    (resp : Except Unit (List AdapterBreakpoint)) : SetBpOutcome :=
  if once && !supportsOnce then { col := col, requests := [], result := Except.error () }
  else
    let col1 := addSourceBreakpoint col nextIndex path line once
    if sessionState != SessionState.CONFIGURING then
      match setSourceBreakpointsForPath col1 path (some nextIndex) resp with
      | (req, Except.error _) => { col := col1, requests := [req], result := Except.error () }
      | (req, Except.ok (col2, found)) =>
        { col := col2, requests := [req],
          result := Except.ok (nextIndex, found.bind fun b => b.message) }
    else
      { col := col1, requests := [],
        result := Except.ok (nextIndex, some "Breakpoint pending until program starts.") }

/-- Embedding of `Debugger.setFunctionBreakpoint`: reject when the adapter lacks
function-breakpoint support or `once` is unsupported; otherwise add and, unless
CONFIGURING, immediately re-send the enabled function breakpoints. -/
def setFunctionBreakpoint (sessionState : SessionState) (supportsFuncBp supportsOnce : Bool)
    (col : List Breakpoint) (nextIndex : Nat) (func : String) (once : Bool)
    (resp : Except Unit (List AdapterBreakpoint)) : SetBpOutcome :=
  if !supportsFuncBp then { col := col, requests := [], result := Except.error () }
  else if once && !supportsOnce then { col := col, requests := [], result := Except.error () }
  else
    let col1 := addFunctionBreakpoint col nextIndex func once
    if sessionState != SessionState.CONFIGURING then
      match setFunctionBreakpointsOp col1 nextIndex resp with
      | (req, Except.error _) => { col := col1, requests := [req], result := Except.error () }
      | (req, Except.ok (col2, found)) =>
        { col := col2, requests := [req],
          result := Except.ok (nextIndex, found.bind fun b => b.message) }
    else
      { col := col1, requests := [],
        result := Except.ok (nextIndex, some "Breakpoint pending until program starts.") }

/-- Embedding of `Debugger._pauseAfterAttach`: once both attached and configured,
pause the adapter-declared async-stop thread, else the first thread of the
collection; with no candidate, stop console input and issue nothing. -/
def pauseAfterAttach (configured attached : Bool) (asyncStopThread : Option Nat)
    (threads : List Thread) : List Action :=
  if configured && attached then
    let threadId :=
      match asyncStopThread with
      | some t => some t
      | none => threads.head?.map fun t => t.id
    match threadId with
    | none => [Action.stopInput]
    | some t => [Action.pauseRequest t]
  else []

/-- The output-event subscription filter installed by `_initializeObservers`
(`x.body.category != null && !this._muteOutputCategories.has(x.body.category)`).
The mute set is modelled as a list with membership. -/
def outputEventForwarded (muteOutputCategories : List String) (category : Option String) : Bool :=
  match category with
  | some c => !(muteOutputCategories.contains c)
  | none => false

/-- Embedding of `Debugger._onOutput`: forward the event's text (empty when
absent) to the console. -/
def onOutput (output : Option String) : List Action :=
  [Action.output (output.getD "")]

/-- Embedding of `Debugger._onExitedDebugee` (the `exited` DAP event): state
becomes TERMINATED unconditionally; in launch mode console input restarts and
`relaunch()` is invoked, in attach mode the process exits with status 0. -/
def onExitedDebugee (e : Engine) (exitCode : Int) : Engine × List Action :=
  ({ e with state := SessionState.TERMINATED },
   Action.outputLine ("Target exited with status " ++ toString exitCode) ::
     (if !e.attachMode then [Action.startInput, Action.relaunch] else [Action.processExit 0]))

/-- Embedding of `Debugger._onTerminatedDebugee` (the `terminated` DAP event):
ignored unless the state is RUNNING (some adapters send multiple terminated
events); otherwise like the exited handler. -/
def onTerminatedDebugee (e : Engine) : Engine × List Action :=
  if e.state != SessionState.RUNNING then (e, [])
  else
    ({ e with state := SessionState.TERMINATED },
     Action.outputLine "The target has exited." ::
       (if !e.attachMode then [Action.startInput, Action.relaunch] else [Action.processExit 0]))

/-- Embedding of `Debugger._onAdapterExited`: a no-op for the self-inflicted
teardown (INITIALIZING while disconnecting), otherwise like the exited handler
without the console line. -/
def onAdapterExited (e : Engine) : Engine × List Action :=
  if e.state == SessionState.INITIALIZING && e.disconnecting then (e, [])
  else
    ({ e with state := SessionState.TERMINATED },
     if !e.attachMode then [Action.startInput, Action.relaunch] else [Action.processExit 0])

/-- Modelled from the spec: `ThreadCollection.allThreadsRunning` predicate
(ThreadCollection.js is not in the supplied sources): every thread is running. -/
def allThreadsRunning (threads : List Thread) : Bool :=
  threads.all fun t => !t.stopped

/-- Modelled from the spec: `ThreadCollection.firstStoppedThread` — any stopped
thread, stable tie-break by ascending id; returns its id. -/
def firstStoppedThread (threads : List Thread) : Option Nat :=
  (threads.filter fun t => t.stopped).foldl
    (fun acc t =>
      match acc with
      | none => some t.id
      | some j => some (Nat.min j t.id))
    none

/-- A DAP stopped event (the body fields `_onStopped` reads). -/
structure StoppedEvent where
  description : Option String := none
  threadId : Option Nat := none
  allThreadsStopped : Option Bool := none
  breakpointId : Option Nat := none
deriving DecidableEq, Repr

/-- The source banner data `_getTopOfStackSourceInfo` resolves asynchronously
(file name, frame line, line text). -/
structure TopOfStack where
  name : String
  frameLine : Nat
  lineText : String
deriving DecidableEq, Repr

/-- The `_stoppedAtBreakpoint` lookup at the top of `_onStopped`: find the
breakpoint carrying the event's adapter id, warning on the console when the id
is unknown (`getBreakpointById` throws NotFound, which the source catches). -/
def stoppedAtLookup (col : List Breakpoint) (breakpointId : Option Nat) :
    Option Breakpoint × List Action :=
  match breakpointId with
  | none => (none, [])
  | some bid =>
    match col.find? (fun b => b.id == some bid) with
    | some bp => (some bp, [])
    | none =>
      (none,
       [Action.outputLine
          "Debugger stopped at unrecognized breakpoint -- current breakpoint will not be valid."])

/-- Embedding of `Debugger._disableBreakpointIfOneShot`: nothing without a
breakpoint id; `getBreakpointById` throws NotFound (uncaught here) for an
unknown id; a ONCE breakpoint is set DISABLED and `_resetAllBreakpoints` is
invoked (the returned flag). -/
def disableBreakpointIfOneShot (col : List Breakpoint) (breakpointId : Option Nat) :
    Except Unit (List Breakpoint × Bool) :=
  match breakpointId with
  | none => Except.ok (col, false)
  | some bid =>
    match col.find? (fun b => b.id == some bid) with
    | none => Except.error ()
    | some bpt =>
      if bpt.state == BreakpointState.ONCE then
        Except.ok
          (col.map fun b =>
            if b.index == bpt.index then { b with state := BreakpointState.DISABLED } else b,
           true)
      else Except.ok (col, false)

/-- The thread-marking block of `_onStopped`: mark all (or the event's) thread
stopped and clear its selected frame; a stop for an unknown thread id throws. -/
def markStopped (threads : List Thread) (ev : StoppedEvent) :
    Except Unit (List Thread × List Action) :=
  if ev.allThreadsStopped == some true then
    Except.ok (threads.map fun t => { t with stopped := true, selectedFrame := 0 }, [])
  else
    match ev.threadId with
    | some tid =>
      let marked := threads.map fun t => if t.id == tid then { t with stopped := true } else t
      match marked.find? (fun t => t.id == tid) with
      | none => Except.error ()
      | some _ =>
        Except.ok
          (marked.map fun t => if t.id == tid then { t with selectedFrame := 0 } else t, [])
    | none => Except.ok (threads, [Action.outputLine "stop event with no thread information."])

/-- Embedding of `Debugger._onStopped`.  `stackInfo` stands for the awaited
`_getTopOfStackSourceInfo` call: `Except.error msg` is a rejection caught by the
handler's try/catch, `Except.ok` carries the optional banner data.  On the first
stop the focus thread is set (event thread id, else first stopped thread — a
missing one fails the source's invariant), the banner is printed, the commands'
onStopped hooks run, the state becomes STOPPED and console input starts. -/
def onStopped (e : Engine) (ev : StoppedEvent) (stackInfo : Except String (Option TopOfStack)) :
    Except Unit (Engine × List Action) :=
  let la := stoppedAtLookup e.breakpoints ev.breakpointId
  match disableBreakpointIfOneShot e.breakpoints ev.breakpointId with
  | Except.error u => Except.error u
  | Except.ok (bps, didReset) =>
    let acts1 := la.2 ++ (if didReset then [Action.resetAllBreakpoints] else [])
    let firstStop := allThreadsRunning e.threads
    let acts2 := acts1 ++
      (match firstStop, ev.description with
       | true, some d => [Action.outputLine ("Stopped: " ++ d)]
       | _, _ => [])
    match markStopped e.threads ev with
    | Except.error u => Except.error u
    | Except.ok (threads2, acts3) =>
      let e2 := { e with stoppedAtBreakpoint := la.1, breakpoints := bps, threads := threads2 }
      let acts4 := acts2 ++ acts3
      if firstStop then
        match (match ev.threadId with
               | some tid => some tid
               | none => firstStoppedThread threads2) with
        | none => Except.error ()
        | some fid =>
          let tryActs :=
            match stackInfo with
            | Except.error msg =>
              [Action.outputLine ("failed to get source at stop point: " ++ msg)]
            | Except.ok none => [Action.runOnStoppedHooks]
            | Except.ok (some tos) =>
              [Action.outputLine (tos.name ++ ":" ++ toString tos.frameLine ++ " " ++ tos.lineText),
               Action.runOnStoppedHooks]
          Except.ok
            ({ e2 with focusThreadId := some fid, state := SessionState.STOPPED },
             acts4 ++ tryActs ++ [Action.startInput])
      else Except.ok (e2, acts4)

/-- Helper: `xs` occurs within `ys` in order (subsequence test), used to state
that a handler performs certain actions in a certain order. -/
def isSubseq (xs ys : List Action) : Bool :=
  match xs, ys with
  | [], _ => true
  | _ :: _, [] => false
  | x :: xt, y :: yt => if x == y then isSubseq xt yt else isSubseq (x :: xt) yt

/-- The actions the three termination handlers perform after the transition:
launch mode restarts console input then relaunches and never exits the process;
attach mode exits the process and never relaunches. -/
def terminationActions (attachMode : Bool) (acts : List Action) : Bool :=
  if attachMode then
    acts.contains (Action.processExit 0) && !(acts.contains Action.relaunch)
  else
    isSubseq [Action.startInput, Action.relaunch] acts
      && !(acts.contains (Action.processExit 0))

/-! Concrete sample values used by the closed witness and counterexample
theorems below. -/

/-- A running launch-mode engine with no threads or breakpoints. -/
def sampleRunningEngine : Engine :=
  { state := SessionState.RUNNING, attachMode := false, disconnecting := false,
    threads := [], focusThreadId := none, breakpoints := [], stoppedAtBreakpoint := none }

/-- A stopped launch-mode engine with no threads or breakpoints. -/
def sampleStoppedEngine : Engine :=
  { state := SessionState.STOPPED, attachMode := false, disconnecting := false,
    threads := [], focusThreadId := none, breakpoints := [], stoppedAtBreakpoint := none }

/-- An enabled source breakpoint at `/a.c:7` with no adapter id yet. -/
def sampleLocalBp : Breakpoint :=
  { index := 0, path := some "/a.c", line := some 7 }

/-- The same breakpoint, disabled. -/
def disabledSrcBp : Breakpoint :=
  { index := 0, path := some "/a.c", line := some 7, state := BreakpointState.DISABLED }

/-- An adapter response element carrying an id, a verified flag and a message. -/
def sampleAdapterResp : AdapterBreakpoint :=
  { id := some 5, verified := some true, message := some "resolved" }

/-- A running launch-mode engine with one running thread and one armed one-shot
source breakpoint whose adapter id is 9. -/
def sampleOnceEngine : Engine :=
  { state := SessionState.RUNNING, attachMode := false, disconnecting := false,
    threads := [{ id := 1, name := "thread 1" }], focusThreadId := none,
    breakpoints := [{ index := 0, id := some 9, path := some "/a.c", line := some 7,
                      state := BreakpointState.ONCE }],
    stoppedAtBreakpoint := none }

/-- A stop event at adapter breakpoint 9 on thread 1, stopping all threads. -/
def sampleStopEvent : StoppedEvent :=
  { description := some "breakpoint", threadId := some 1, allThreadsStopped := some true,
    breakpointId := some 9 }

/-! Claim theorems. -/

/-- Claim C8 counterexample: invoking `toggleState` twice on a breakpoint in the
`once` state does not restore `once` — the spec's transition collapses once to
disabled, whose toggle is enabled. -/
theorem c8_counterexample :
    toggleState (toggleState BreakpointState.ONCE) ≠ BreakpointState.ONCE := by decide

/-- Claim C8 (amended): double toggle restores `enabled` and `disabled`
unchanged, but a `once` breakpoint ends up `enabled`. -/
theorem c8_double_toggle (s : BreakpointState) :
    toggleState (toggleState s) =
      (match s with
       | BreakpointState.ONCE => BreakpointState.ENABLED
       | t => t) := by
  cases s <;> rfl

/-- Claim C9: `setAllBreakpointsEnabled` sets every breakpoint's state to ENABLED
regardless of its boolean argument — the outcome for `enabled` is identical to
the outcome for `false` — and invokes `_resetAllBreakpoints` (the flag). -/
theorem c9_all_enabled_regardless (col : List Breakpoint) (enabled : Bool) :
    ((setAllBreakpointsEnabled col enabled).1.all fun b =>
        b.state == BreakpointState.ENABLED) = true
    ∧ (setAllBreakpointsEnabled col enabled).2 = true
    ∧ setAllBreakpointsEnabled col enabled = setAllBreakpointsEnabled col false := by
  refine ⟨?_, rfl, rfl⟩
  simp [setAllBreakpointsEnabled, List.all_eq_true]

/-- Claim C7 counterexample: with attach set-up complete but neither an
`asyncStopThread` nor any thread, the engine issues no pause request but stops
console input rather than leaving it active. -/
theorem c7_counterexample :
    pauseAfterAttach true true none [] = [Action.stopInput]
    ∧ Action.startInput ∉ pauseAfterAttach true true none [] := by
  exact ⟨rfl, by decide⟩

/-- Claim C7 (amended): when attached and configured, the paused thread is the
adapter-declared `asyncStopThread` if present, else the first thread of the
list; with neither, the engine issues no pause request and stops console
input. -/
theorem c7_pause_choice (asyncStopThread : Option Nat) (threads : List Thread) :
    pauseAfterAttach true true asyncStopThread threads =
      (match asyncStopThread with
       | some t => [Action.pauseRequest t]
       | none =>
         match threads with
         | [] => [Action.stopInput]
         | t :: _ => [Action.pauseRequest t.id]) := by
  cases asyncStopThread <;> cases threads <;> rfl

/-- Claim C6 counterexample: an output event carrying no category at all is not
forwarded, even with an empty mute set. -/
theorem c6_counterexample : ¬ (outputEventForwarded [] none = true) := by decide

/-- Claim C6 (amended): an output event is forwarded to the console exactly when
it carries a category that is not in `muteOutputCategories`; the forwarded text
is the event's output. -/
theorem c6_forwarding (muteOutputCategories : List String) (category : Option String)
    (text : String) :
    (outputEventForwarded muteOutputCategories category = true ↔
      ∃ c, category = some c ∧ c ∉ muteOutputCategories)
    ∧ onOutput (some text) = [Action.output text] := by
  refine ⟨?_, rfl⟩
  cases category with
  | none => simp [outputEventForwarded]
  | some c => simp [outputEventForwarded]

/-- Claim C2 counterexample: a `terminated` event received while the session
state is `stopped` is ignored — no transition to `terminated`, no actions. -/
theorem c2_counterexample :
    onTerminatedDebugee sampleStoppedEngine = (sampleStoppedEngine, [])
    ∧ (onTerminatedDebugee sampleStoppedEngine).1.state ≠ SessionState.TERMINATED := by
  exact ⟨rfl, by decide⟩

/-- Claim C2 (amended): while running or stopped, `exited` and `adapter-exited`
events transition the state to `terminated` and then, in launch mode, restart
console input and relaunch (in that order, never exiting the process), and in
attach mode exit the process (never relaunching); a `terminated` event does the
same but only while running — while stopped it is ignored entirely. -/
theorem c2_termination_events (e : Engine) (exitCode : Int)
    (h : e.state = SessionState.RUNNING ∨ e.state = SessionState.STOPPED) :
    ((onExitedDebugee e exitCode).1.state = SessionState.TERMINATED
      ∧ terminationActions e.attachMode (onExitedDebugee e exitCode).2 = true)
    ∧ ((onAdapterExited e).1.state = SessionState.TERMINATED
      ∧ terminationActions e.attachMode (onAdapterExited e).2 = true)
    ∧ (e.state = SessionState.RUNNING →
        (onTerminatedDebugee e).1.state = SessionState.TERMINATED
        ∧ terminationActions e.attachMode (onTerminatedDebugee e).2 = true)
    ∧ (e.state = SessionState.STOPPED → onTerminatedDebugee e = (e, [])) := by
  have hguard : (e.state == SessionState.INITIALIZING && e.disconnecting) = false := by
    rcases h with h | h <;> simp [h]
  refine ⟨⟨rfl, ?_⟩, ⟨?_, ?_⟩, ?_, ?_⟩
  · cases hA : e.attachMode <;>
      simp [onExitedDebugee, terminationActions, isSubseq, hA]
  · simp [onAdapterExited, hguard]
  · cases hA : e.attachMode <;>
      simp [onAdapterExited, terminationActions, isSubseq, hA, hguard]
  · intro hr
    cases hA : e.attachMode <;>
      simp [onTerminatedDebugee, terminationActions, isSubseq, hA, hr]
  · intro hs
    simp [onTerminatedDebugee, hs]

/-- Claim C2 witness: the amended termination behaviour at a concrete running
launch-mode engine. -/
theorem c2_witness :
    (sampleRunningEngine.state = SessionState.RUNNING
      ∨ sampleRunningEngine.state = SessionState.STOPPED)
    ∧ (((onExitedDebugee sampleRunningEngine 0).1.state = SessionState.TERMINATED
      ∧ terminationActions sampleRunningEngine.attachMode
          (onExitedDebugee sampleRunningEngine 0).2 = true)
    ∧ ((onAdapterExited sampleRunningEngine).1.state = SessionState.TERMINATED
      ∧ terminationActions sampleRunningEngine.attachMode
          (onAdapterExited sampleRunningEngine).2 = true)
    ∧ (sampleRunningEngine.state = SessionState.RUNNING →
        (onTerminatedDebugee sampleRunningEngine).1.state = SessionState.TERMINATED
        ∧ terminationActions sampleRunningEngine.attachMode
            (onTerminatedDebugee sampleRunningEngine).2 = true)
    ∧ (sampleRunningEngine.state = SessionState.STOPPED →
        onTerminatedDebugee sampleRunningEngine = (sampleRunningEngine, []))) :=
  ⟨Or.inl rfl, c2_termination_events sampleRunningEngine 0 (Or.inl rfl)⟩

/-- Helper: overwriting a breakpoint's state (however it was first rewritten)
with its previous value restores the collection, provided every entry carrying
the index had that previous state — which index uniqueness guarantees. -/
theorem restore_state_elem (b : Breakpoint) (i : Nat) (s : BreakpointState)
    (u : Breakpoint → BreakpointState) (h : b.index = i → b.state = s) :
    (fun x => if x.index == i then { x with state := s } else x)
      ((fun x => if x.index == i then { x with state := u x } else x) b) = b := by
  obtain ⟨bi, bid, bv, bm, bp, bl, bf, bst⟩ := b
  by_cases hbi : bi = i
  · have hs := h hbi
    simp_all
  · simp_all

/-- Helper: the collection-level version of `restore_state_elem`. -/
theorem map_restore_state (col : List Breakpoint) (i : Nat) (s : BreakpointState)
    (u : Breakpoint → BreakpointState) (h : ∀ b ∈ col, b.index = i → b.state = s) :
    ((col.map fun b => if b.index == i then { b with state := u b } else b).map
        fun b => if b.index == i then { b with state := s } else b) = col := by
  rw [List.map_map]
  conv_rhs => rw [← List.map_id col]
  exact List.map_congr_left fun b hb => restore_state_elem b i s u (h b hb)

/-- Helper: with unique indices, every collection member carrying the found
breakpoint's index has its state. -/
theorem state_of_index_eq (col : List Breakpoint) (bpIndex : Nat) (bp : Breakpoint)
    (hnodup : (col.map fun b => b.index).Nodup)
    (hfind : col.find? (fun b => b.index == bpIndex) = some bp) :
    ∀ b ∈ col, b.index = bpIndex → b.state = bp.state := by
  intro b hb hbi
  have hbp : bp ∈ col := List.mem_of_find?_eq_some hfind
  have hbpi : bp.index = bpIndex := by
    have := List.find?_some hfind
    simpa using this
  have : b = bp :=
    List.inj_on_of_nodup_map hnodup hb hbp (by rw [hbi, hbpi])
  rw [this]

/-- Claim C3: a failed `setBreakpoints` during `toggleBreakpoint` (and during
`setBreakpointEnabled` on an enabled breakpoint) rolls the breakpoint back to
its prior state — the collection is exactly what it was — and the error is
re-thrown. -/
theorem c3_rollback_on_failure (sessionState : SessionState) (col : List Breakpoint)
    (bpIndex : Nat) (bp : Breakpoint) (funcResp : Except Unit (List AdapterBreakpoint))
    (supportsFuncBp : Bool) (enabled : Bool)
    (hsession : ensureDebugSessionOk sessionState false = true)
    (hnodup : (col.map fun b => b.index).Nodup)
    (hfind : col.find? (fun b => b.index == bpIndex) = some bp)
    (hpath : bp.path.isSome) :
    ((toggleBreakpoint sessionState col bpIndex (Except.error ()) funcResp
        supportsFuncBp).col = col
      ∧ (toggleBreakpoint sessionState col bpIndex (Except.error ()) funcResp
          supportsFuncBp).threw = true)
    ∧ (bp.state = BreakpointState.ENABLED →
        (setBreakpointEnabled sessionState col bpIndex enabled (Except.error ()) funcResp
            supportsFuncBp).col = col
        ∧ (setBreakpointEnabled sessionState col bpIndex enabled (Except.error ()) funcResp
            supportsFuncBp).threw = true) := by
  obtain ⟨p, hp⟩ := Option.isSome_iff_exists.mp hpath
  have hrestore := state_of_index_eq col bpIndex bp hnodup hfind
  constructor
  · simp only [toggleBreakpoint, hsession, hfind, hp, Bool.not_true, Bool.false_eq_true,
      if_false, setSourceBreakpointsForPath]
    exact ⟨map_restore_state col bpIndex bp.state _ hrestore, trivial⟩
  · intro hen
    have hne : (bp.state != BreakpointState.ENABLED) = false := by
      simp [hen]
    simp only [setBreakpointEnabled, hsession, hfind, hp, hne, Bool.not_true,
      Bool.false_eq_true, if_false, setSourceBreakpointsForPath]
    exact ⟨map_restore_state col bpIndex bp.state _ hrestore, trivial⟩

/-- Claim C3 witness: the rollback at a concrete enabled source breakpoint whose
`setBreakpoints` fails. -/
theorem c3_witness :
    ensureDebugSessionOk SessionState.STOPPED false = true
    ∧ ([sampleLocalBp].map fun b => b.index).Nodup
    ∧ [sampleLocalBp].find? (fun b => b.index == 0) = some sampleLocalBp
    ∧ sampleLocalBp.path.isSome
    ∧ (((toggleBreakpoint SessionState.STOPPED [sampleLocalBp] 0 (Except.error ())
          (Except.ok []) false).col = [sampleLocalBp]
        ∧ (toggleBreakpoint SessionState.STOPPED [sampleLocalBp] 0 (Except.error ())
            (Except.ok []) false).threw = true)
      ∧ (sampleLocalBp.state = BreakpointState.ENABLED →
          (setBreakpointEnabled SessionState.STOPPED [sampleLocalBp] 0 true (Except.error ())
              (Except.ok []) false).col = [sampleLocalBp]
          ∧ (setBreakpointEnabled SessionState.STOPPED [sampleLocalBp] 0 true (Except.error ())
              (Except.ok []) false).threw = true)) :=
  ⟨rfl, by decide, rfl, rfl,
    c3_rollback_on_failure SessionState.STOPPED [sampleLocalBp] 0 sampleLocalBp
      (Except.ok []) false true rfl (by decide) rfl rfl⟩

/-- Claim C10: `setBreakpointEnabled` on a breakpoint whose state is not
`enabled` returns immediately — the collection is untouched, no adapter request
is issued, nothing is thrown — whatever the boolean argument. -/
theorem c10_not_enabled_noop (sessionState : SessionState) (col : List Breakpoint)
    (bpIndex : Nat) (enabled : Bool) (srcResp funcResp : Except Unit (List AdapterBreakpoint))
    (supportsFuncBp : Bool) (bp : Breakpoint)
    (hsession : ensureDebugSessionOk sessionState false = true)
    (hfind : col.find? (fun b => b.index == bpIndex) = some bp)
    (hstate : bp.state ≠ BreakpointState.ENABLED) :
    setBreakpointEnabled sessionState col bpIndex enabled srcResp funcResp supportsFuncBp
      = { col := col, requests := [], threw := false } := by
  have hne : (bp.state != BreakpointState.ENABLED) = true := by
    simp [hstate]
  simp [setBreakpointEnabled, hsession, hfind, hne]

/-- Claim C10 witness: enabling a concretely disabled breakpoint with
`enabled = true` leaves the collection unchanged and issues nothing. -/
theorem c10_witness :
    ensureDebugSessionOk SessionState.STOPPED false = true
    ∧ [disabledSrcBp].find? (fun b => b.index == 0) = some disabledSrcBp
    ∧ disabledSrcBp.state ≠ BreakpointState.ENABLED
    ∧ setBreakpointEnabled SessionState.STOPPED [disabledSrcBp] 0 true (Except.ok [])
        (Except.ok []) false
      = { col := [disabledSrcBp], requests := [], threw := false } :=
  ⟨rfl, rfl, by decide,
    c10_not_enabled_noop SessionState.STOPPED [disabledSrcBp] 0 true (Except.ok [])
      (Except.ok []) false disabledSrcBp rfl rfl (by decide)⟩

/-- Claim C5: a breakpoint created while CONFIGURING is added to the collection,
no adapter request is issued, and the result is the new index paired with
"Breakpoint pending until program starts."; in any other state a
`setBreakpoints` request for that path (resp. a `setFunctionBreakpoints`
request) is sent before returning.  `honce`/`hfunc` discharge the capability
guards the source checks first. -/
theorem c5_configuring_defers (supportsOnce supportsFuncBp : Bool) (col : List Breakpoint)
    (nextIndex : Nat) (path func : String) (line : Nat) (once : Bool)
    (sessionState : SessionState) (resp : Except Unit (List AdapterBreakpoint))
    (honce : once = true → supportsOnce = true)
    (hfunc : supportsFuncBp = true) :
    setSourceBreakpoint SessionState.CONFIGURING supportsOnce col nextIndex path line once resp
      = { col := addSourceBreakpoint col nextIndex path line once, requests := [],
          result := Except.ok (nextIndex, some "Breakpoint pending until program starts.") }
    ∧ (sessionState ≠ SessionState.CONFIGURING →
        ∃ lines, (setSourceBreakpoint sessionState supportsOnce col nextIndex path line once
            resp).requests = [Request.setBreakpoints path lines])
    ∧ setFunctionBreakpoint SessionState.CONFIGURING supportsFuncBp supportsOnce col nextIndex
        func once resp
      = { col := addFunctionBreakpoint col nextIndex func once, requests := [],
          result := Except.ok (nextIndex, some "Breakpoint pending until program starts.") }
    ∧ (sessionState ≠ SessionState.CONFIGURING →
        ∃ names, (setFunctionBreakpoint sessionState supportsFuncBp supportsOnce col nextIndex
            func once resp).requests = [Request.setFunctionBreakpoints names]) := by
  have hg : (once && !supportsOnce) = false := by
    cases once with
    | false => rfl
    | true => rw [honce rfl]; rfl
  refine ⟨?_, ?_, ?_, ?_⟩
  · simp [setSourceBreakpoint, hg]
  · intro hst
    have hb : (sessionState != SessionState.CONFIGURING) = true := bne_iff_ne.mpr hst
    refine ⟨(getAllEnabledBreakpointsForSource (addSourceBreakpoint col nextIndex path line once)
      path).map fun b => b.line.getD 0, ?_⟩
    cases resp <;> simp [setSourceBreakpoint, hg, hb, setSourceBreakpointsForPath]
  · simp [setFunctionBreakpoint, hg, hfunc]
  · intro hst
    have hb : (sessionState != SessionState.CONFIGURING) = true := bne_iff_ne.mpr hst
    refine ⟨(getAllEnabledFunctionBreakpoints (addFunctionBreakpoint col nextIndex func
      once)).map fun b => b.func.getD "", ?_⟩
    cases resp <;> simp [setFunctionBreakpoint, hg, hfunc, hb, setFunctionBreakpointsOp]

/-- Claim C5 witness: the deferral and the immediate-send behaviour at concrete
inputs (empty collection, breakpoint at `/a.c:7`, function breakpoint `foo`,
other state RUNNING). -/
theorem c5_witness :
    (false = true → true = true)
    ∧ true = true
    ∧ (setSourceBreakpoint SessionState.CONFIGURING true [] 0 "/a.c" 7 false (Except.ok [])
        = { col := addSourceBreakpoint [] 0 "/a.c" 7 false, requests := [],
            result := Except.ok (0, some "Breakpoint pending until program starts.") }
      ∧ (SessionState.RUNNING ≠ SessionState.CONFIGURING →
          ∃ lines, (setSourceBreakpoint SessionState.RUNNING true [] 0 "/a.c" 7 false
              (Except.ok [])).requests = [Request.setBreakpoints "/a.c" lines])
      ∧ setFunctionBreakpoint SessionState.CONFIGURING true true [] 0 "foo" false (Except.ok [])
        = { col := addFunctionBreakpoint [] 0 "foo" false, requests := [],
            result := Except.ok (0, some "Breakpoint pending until program starts.") }
      ∧ (SessionState.RUNNING ≠ SessionState.CONFIGURING →
          ∃ names, (setFunctionBreakpoint SessionState.RUNNING true true [] 0 "foo" false
              (Except.ok [])).requests = [Request.setFunctionBreakpoints names])) :=
  ⟨fun _ => rfl, rfl,
    c5_configuring_defers true true [] 0 "/a.c" "foo" 7 false SessionState.RUNNING
      (Except.ok []) (fun _ => rfl) rfl⟩

/-- Helper: `_updateBreakpoint` never writes the response message onto the local
breakpoint. -/
theorem updateBreakpoint_fst_message (lcl : Breakpoint) (remote : AdapterBreakpoint) :
    ((updateBreakpoint lcl remote).1).message = lcl.message := by
  obtain ⟨bi, bid, bv, bm, bp, bl, bf, bs⟩ := lcl
  obtain ⟨rid, rv, rm, rp, rl⟩ := remote
  cases rid <;> cases rv <;> cases bf <;> cases rp <;> cases rl <;> rfl

/-- Helper: with a response id present, `_updateBreakpoint` stores the id and
takes the response verified flag when one is present (the local flag is kept
otherwise). -/
theorem updateBreakpoint_fst_id_some (lcl : Breakpoint) (remote : AdapterBreakpoint)
    (n : Nat) (h : remote.id = some n) :
    (updateBreakpoint lcl remote).1.id = some n
    ∧ (updateBreakpoint lcl remote).1.verified = remote.verified.getD lcl.verified := by
  obtain ⟨bi, bid, bv, bm, bp, bl, bf, bs⟩ := lcl
  obtain ⟨rid, rv, rm, rp, rl⟩ := remote
  subst h
  cases rv <;> cases bf <;> cases rp <;> cases rl <;> exact ⟨rfl, rfl⟩

/-- Helper: with the response id omitted, `_updateBreakpoint` marks the local
breakpoint verified unconditionally and leaves its id alone. -/
theorem updateBreakpoint_fst_id_none (lcl : Breakpoint) (remote : AdapterBreakpoint)
    (h : remote.id = none) :
    (updateBreakpoint lcl remote).1.verified = true
    ∧ (updateBreakpoint lcl remote).1.id = lcl.id := by
  obtain ⟨bi, bid, bv, bm, bp, bl, bf, bs⟩ := lcl
  obtain ⟨rid, rv, rm, rp, rl⟩ := remote
  subst h
  cases rv <;> cases bf <;> cases rp <;> cases rl <;> exact ⟨rfl, rfl⟩

/-- Helper: `_updateBreakpoint` never changes the breakpoint's index. -/
theorem updateBreakpoint_fst_index (lcl : Breakpoint) (remote : AdapterBreakpoint) :
    (updateBreakpoint lcl remote).1.index = lcl.index := by
  obtain ⟨bi, bid, bv, bm, bp, bl, bf, bs⟩ := lcl
  obtain ⟨rid, rv, rm, rp, rl⟩ := remote
  cases rid <;> cases rv <;> cases bf <;> cases rp <;> cases rl <;> rfl

/-- Helper: one pairwise update step preserves every index. -/
theorem updStep_index (i : Nat) (r : AdapterBreakpoint) (b : Breakpoint) :
    (if b.index == i then (updateBreakpoint b r).1 else b).index = b.index := by
  by_cases h : b.index = i
  · simp [h, updateBreakpoint_fst_index]
  · simp [h]

/-- Helper: a pairwise update step leaves alone any breakpoint of another index. -/
theorem updStep_eq_of_ne (i : Nat) (r : AdapterBreakpoint) (b : Breakpoint)
    (h : b.index ≠ i) : (if b.index == i then (updateBreakpoint b r).1 else b) = b := by
  simp [h]

/-- Helper: searching by one index commutes with the update step of another. -/
theorem find?_updStep_ne (c : List Breakpoint) (k i : Nat) (r : AdapterBreakpoint)
    (hki : k ≠ i) :
    (c.map fun b => if b.index == k then (updateBreakpoint b r).1 else b).find?
        (fun b => b.index == i)
      = c.find? (fun b => b.index == i) := by
  induction c with
  | nil => rfl
  | cons b c ih =>
    have hidx : (if b.index == k then (updateBreakpoint b r).1 else b).index = b.index :=
      updStep_index k r b
    by_cases hb : b.index = i
    · have hbk : b.index ≠ k := fun hh => hki (hh.symm.trans hb)
      rw [List.map_cons, updStep_eq_of_ne k r b hbk,
        List.find?_cons_of_pos _ (by simp [hb]), List.find?_cons_of_pos _ (by simp [hb])]
    · rw [List.map_cons,
        List.find?_cons_of_neg _ (by rw [beq_iff_eq, hidx]; exact hb),
        List.find?_cons_of_neg _ (by simp [hb]), ih]

/-- Helper: searching by an index commutes with that index's own update step. -/
theorem find?_updStep_eq (c : List Breakpoint) (i : Nat) (r : AdapterBreakpoint) :
    (c.map fun b => if b.index == i then (updateBreakpoint b r).1 else b).find?
        (fun b => b.index == i)
      = (c.find? (fun b => b.index == i)).map
          (fun b => if b.index == i then (updateBreakpoint b r).1 else b) := by
  induction c with
  | nil => rfl
  | cons b c ih =>
    have hidx : (if b.index == i then (updateBreakpoint b r).1 else b).index = b.index :=
      updStep_index i r b
    by_cases hb : b.index = i
    · rw [List.map_cons, List.find?_cons_of_pos _ (by rw [beq_iff_eq, hidx]; exact hb),
        List.find?_cons_of_pos _ (by simp [hb]), Option.map_some']
    · rw [List.map_cons, List.find?_cons_of_neg _ (by rw [beq_iff_eq, hidx]; exact hb),
        List.find?_cons_of_neg _ (by simp [hb]), ih]

/-- Helper: folding updates whose paired indices all differ from `i` does not
change the search result at `i`. -/
theorem find?_applyRemotePairs_untouched (ls : List Breakpoint)
    (rs : List AdapterBreakpoint) (c : List Breakpoint) (i : Nat)
    (h : ∀ x ∈ ls, x.index ≠ i) :
    (applyRemotePairs c ls rs).find? (fun b => b.index == i)
      = c.find? (fun b => b.index == i) := by
  induction ls generalizing c rs with
  | nil => rfl
  | cons x xs ih =>
    cases rs with
    | nil => rfl
    | cons r rs2 =>
      have hstep : applyRemotePairs c (x :: xs) (r :: rs2)
          = applyRemotePairs
              (c.map fun b => if b.index == x.index then (updateBreakpoint b r).1 else b)
              xs rs2 := rfl
      rw [hstep, ih rs2 _ (fun y hy => h y (List.mem_cons_of_mem x hy)),
        find?_updStep_ne c x.index i r (h x (List.mem_cons_self x xs))]

/-- Helper: a sublist whose elements a map fixes is still a sublist of the
mapped list. -/
theorem sublist_map_of_fixed {ls c : List Breakpoint} {f : Breakpoint → Breakpoint}
    (hsub : ls.Sublist c) : (∀ x ∈ ls, f x = x) → ls.Sublist (c.map f) := by
  induction hsub with
  | slnil => intro hfix; simp
  | cons a h ih =>
    intro hfix
    rw [List.map_cons]
    exact (ih hfix).cons (f a)
  | cons₂ a h ih =>
    intro hfix
    rw [List.map_cons, hfix a (List.mem_cons_self a _)]
    exact (ih fun x hx => hfix x (List.mem_cons_of_mem a hx)).cons₂ a

/-- Helper: an update step does not disturb index uniqueness. -/
theorem nodup_index_map_updStep (c : List Breakpoint) (k : Nat) (r : AdapterBreakpoint)
    (h : (c.map fun b => b.index).Nodup) :
    ((c.map fun b => if b.index == k then (updateBreakpoint b r).1 else b).map
        fun b => b.index).Nodup := by
  rw [List.map_map]
  have heq : ((fun b => b.index) ∘
      fun b => if b.index == k then (updateBreakpoint b r).1 else b) = fun b => b.index := by
    funext b
    exact updStep_index k r b
  rw [heq]
  exact h

/-- Helper (bridge): on a collection with unique indices, the collection-level
pairwise reconciliation (`applyRemotePairs`, the fold the engine's operations
run) agrees, at each paired breakpoint's index, with the per-pair update of
`reconcilePairs`. -/
theorem applyRemotePairs_find? (locals : List Breakpoint) (resp : List AdapterBreakpoint)
    (col : List Breakpoint)
    (hnodup : (col.map fun b => b.index).Nodup)
    (hsub : locals.Sublist col)
    (j : Nat) (hj : j < locals.length) (hjr : j < resp.length) :
    (applyRemotePairs col locals resp).find?
        (fun b => b.index == (locals.get ⟨j, hj⟩).index)
      = some (updateBreakpoint (locals.get ⟨j, hj⟩) (resp.get ⟨j, hjr⟩)).1 := by
  induction locals generalizing col resp j with
  | nil => exact absurd hj (by simp)
  | cons l ls ih =>
    cases resp with
    | nil => exact absurd hjr (by simp)
    | cons r rs =>
      have hlnodup : ((l :: ls).map fun b => b.index).Nodup :=
        hnodup.sublist (hsub.map fun b => b.index)
      have hnotin : l.index ∉ ls.map (fun b => b.index) := by
        simp only [List.map_cons, List.nodup_cons] at hlnodup
        exact hlnodup.1
      have hls : ∀ x ∈ ls, x.index ≠ l.index := by
        intro x hx hxe
        exact hnotin (hxe ▸ List.mem_map_of_mem (fun b => b.index) hx)
      have hstep : applyRemotePairs col (l :: ls) (r :: rs)
          = applyRemotePairs
              (col.map fun b => if b.index == l.index then (updateBreakpoint b r).1 else b)
              ls rs := rfl
      cases j with
      | zero =>
        have hget0 : (l :: ls).get ⟨0, hj⟩ = l := rfl
        have hgetr0 : (r :: rs).get ⟨0, hjr⟩ = r := rfl
        rw [hget0, hgetr0, hstep, find?_applyRemotePairs_untouched ls rs _ l.index hls,
          find?_updStep_eq col l.index r]
        have hlmem : l ∈ col := hsub.subset (List.mem_cons_self l ls)
        have hcfind : col.find? (fun b => b.index == l.index) = some l := by
          cases hx : col.find? (fun b => b.index == l.index) with
          | none =>
            rw [List.find?_eq_none] at hx
            exact absurd (by simp : (l.index == l.index) = true) (by simpa using hx l hlmem)
          | some x =>
            have hxmem := List.mem_of_find?_eq_some hx
            have hxi : x.index = l.index := by simpa using List.find?_some hx
            rw [List.inj_on_of_nodup_map hnodup hxmem hlmem hxi]
        rw [hcfind, Option.map_some']
        simp
      | succ j2 =>
        have hgets : (l :: ls).get ⟨j2 + 1, hj⟩
            = ls.get ⟨j2, Nat.lt_of_succ_lt_succ hj⟩ := rfl
        have hgetrs : (r :: rs).get ⟨j2 + 1, hjr⟩
            = rs.get ⟨j2, Nat.lt_of_succ_lt_succ hjr⟩ := rfl
        rw [hgets, hgetrs, hstep]
        have hfix : ∀ x ∈ ls,
            (fun b => if b.index == l.index then (updateBreakpoint b r).1 else b) x = x :=
          fun x hx => updStep_eq_of_ne l.index r x (hls x hx)
        have hsub2 : ls.Sublist
            (col.map fun b => if b.index == l.index then (updateBreakpoint b r).1 else b) :=
          sublist_map_of_fixed ((List.sublist_cons_self l ls).trans hsub) hfix
        have hnodup2 := nodup_index_map_updStep col l.index r hnodup
        exact ih _ _ hnodup2 hsub2 j2 (Nat.lt_of_succ_lt_succ hj) (Nat.lt_of_succ_lt_succ hjr)

/-- Claim C1 counterexample: a same-length reconciliation whose response carries
a message does not leave that message on the local breakpoint (the local
message list stays `[none]`, not the response's message list). -/
theorem c1_counterexample :
    ¬ (((reconcilePairs [sampleLocalBp] [sampleAdapterResp]).map fun b => b.message)
        = [sampleAdapterResp].map fun r => r.message) := by decide

/-- Claim C1 (amended): in a same-length positional reconciliation the i-th
local enabled breakpoint receives the adapter's i-th `id`, and its `verified`
flag — copied from the response when the id is present (kept when the response
omits verified), and set to true unconditionally when the id is omitted — but
the adapter's `message` is never stored on the local breakpoint.  The last
conjunct lifts this to the collection: in any collection with unique indices of
which the request list is a sublist, the reconciled collection's entry at the
i-th paired breakpoint's index is exactly that pairwise update. -/
theorem c1_pairwise_reconciliation (locals : List Breakpoint)
    (resp : List AdapterBreakpoint) (i : Nat) (hl : i < locals.length)
    (hr : i < resp.length) (ho : i < (reconcilePairs locals resp).length) :
    (((reconcilePairs locals resp).get ⟨i, ho⟩).message = (locals.get ⟨i, hl⟩).message)
    ∧ (∀ n, (resp.get ⟨i, hr⟩).id = some n →
        ((reconcilePairs locals resp).get ⟨i, ho⟩).id = some n
        ∧ ((reconcilePairs locals resp).get ⟨i, ho⟩).verified
            = ((resp.get ⟨i, hr⟩).verified.getD ((locals.get ⟨i, hl⟩).verified)))
    ∧ ((resp.get ⟨i, hr⟩).id = none →
        ((reconcilePairs locals resp).get ⟨i, ho⟩).verified = true
        ∧ ((reconcilePairs locals resp).get ⟨i, ho⟩).id = (locals.get ⟨i, hl⟩).id)
    ∧ (∀ col, (col.map fun b => b.index).Nodup → locals.Sublist col →
        (applyRemotePairs col locals resp).find?
            (fun b => b.index == (locals.get ⟨i, hl⟩).index)
          = some (updateBreakpoint (locals.get ⟨i, hl⟩) (resp.get ⟨i, hr⟩)).1) := by
  have key : (reconcilePairs locals resp).get ⟨i, ho⟩
      = (updateBreakpoint (locals.get ⟨i, hl⟩) (resp.get ⟨i, hr⟩)).1 := by
    simp [reconcilePairs, List.get_eq_getElem, List.getElem_map, List.getElem_zip]
  rw [key]
  exact ⟨updateBreakpoint_fst_message _ _,
    fun n hn => updateBreakpoint_fst_id_some _ _ n hn,
    fun hn => updateBreakpoint_fst_id_none _ _ hn,
    fun col hn hs => applyRemotePairs_find? locals resp col hn hs i hl hr⟩

/-- Claim C1 witness: the amended reconciliation behaviour at a concrete
one-element request/response pair carrying an id and a verified flag. -/
theorem c1_witness :
    (0 < [sampleLocalBp].length)
    ∧ (0 < [sampleAdapterResp].length)
    ∧ ((((reconcilePairs [sampleLocalBp] [sampleAdapterResp]).get
          ⟨0, Nat.zero_lt_one⟩).message
        = ([sampleLocalBp].get ⟨0, Nat.zero_lt_one⟩).message)
      ∧ (∀ n, ([sampleAdapterResp].get ⟨0, Nat.zero_lt_one⟩).id = some n →
          (((reconcilePairs [sampleLocalBp] [sampleAdapterResp]).get
              ⟨0, Nat.zero_lt_one⟩).id = some n)
          ∧ (((reconcilePairs [sampleLocalBp] [sampleAdapterResp]).get
              ⟨0, Nat.zero_lt_one⟩).verified
            = (([sampleAdapterResp].get ⟨0, Nat.zero_lt_one⟩).verified.getD
                (([sampleLocalBp].get ⟨0, Nat.zero_lt_one⟩).verified))))
      ∧ (([sampleAdapterResp].get ⟨0, Nat.zero_lt_one⟩).id = none →
          (((reconcilePairs [sampleLocalBp] [sampleAdapterResp]).get
              ⟨0, Nat.zero_lt_one⟩).verified = true)
          ∧ (((reconcilePairs [sampleLocalBp] [sampleAdapterResp]).get
              ⟨0, Nat.zero_lt_one⟩).id
            = ([sampleLocalBp].get ⟨0, Nat.zero_lt_one⟩).id))
      ∧ (∀ col, (col.map fun b => b.index).Nodup → [sampleLocalBp].Sublist col →
          (applyRemotePairs col [sampleLocalBp] [sampleAdapterResp]).find?
              (fun b => b.index == ([sampleLocalBp].get ⟨0, Nat.zero_lt_one⟩).index)
            = some (updateBreakpoint ([sampleLocalBp].get ⟨0, Nat.zero_lt_one⟩)
                ([sampleAdapterResp].get ⟨0, Nat.zero_lt_one⟩)).1)) :=
  ⟨by decide, by decide,
    c1_pairwise_reconciliation [sampleLocalBp] [sampleAdapterResp] 0
      Nat.zero_lt_one Nat.zero_lt_one Nat.zero_lt_one⟩

/-- Claim C4: a stop event carrying the adapter id of a breakpoint whose state
is `once` disables that breakpoint in the collection and invokes
`_resetAllBreakpoints` as the first engine action of the handler — in
particular before console input returns control to the user. -/
theorem c4_once_disabled (e : Engine) (ev : StoppedEvent)
    (stackInfo : Except String (Option TopOfStack)) (bid : Nat) (bp : Breakpoint)
    (e2 : Engine) (acts : List Action)
    (hbid : ev.breakpointId = some bid)
    (hfind : e.breakpoints.find? (fun b => b.id == some bid) = some bp)
    (honce : bp.state = BreakpointState.ONCE)
    (hrun : onStopped e ev stackInfo = Except.ok (e2, acts)) :
    e2.breakpoints
        = e.breakpoints.map (fun b =>
            if b.index == bp.index then { b with state := BreakpointState.DISABLED } else b)
    ∧ acts.head? = some Action.resetAllBreakpoints := by
  have hdis : disableBreakpointIfOneShot e.breakpoints ev.breakpointId
      = Except.ok (e.breakpoints.map (fun b =>
          if b.index == bp.index then { b with state := BreakpointState.DISABLED } else b),
        true) := by
    simp [disableBreakpointIfOneShot, hbid, hfind, honce]
  have hla : stoppedAtLookup e.breakpoints ev.breakpointId = (some bp, []) := by
    simp [stoppedAtLookup, hbid, hfind]
  simp only [onStopped, hla, hdis] at hrun
  cases hms : markStopped e.threads ev with
  | error u =>
    rw [hms] at hrun
    exact absurd hrun (by simp)
  | ok tp =>
    obtain ⟨threads2, acts3⟩ := tp
    rw [hms] at hrun
    cases hfs : allThreadsRunning e.threads with
    | false =>
      simp only [hfs] at hrun
      simp at hrun
      obtain ⟨he, ha⟩ := hrun
      subst he
      subst ha
      constructor
      · simp
      · simp
    | true =>
      simp only [hfs] at hrun
      cases het : ev.threadId with
      | some tid =>
        rw [het] at hrun
        simp at hrun
        obtain ⟨he, ha⟩ := hrun
        subst he
        subst ha
        constructor
        · simp
        · simp
      | none =>
        rw [het] at hrun
        cases hft : firstStoppedThread threads2 with
        | none =>
          rw [hft] at hrun
          simp at hrun
        | some fid =>
          rw [hft] at hrun
          simp at hrun
          obtain ⟨he, ha⟩ := hrun
          subst he
          subst ha
          constructor
          · simp
          · simp

/-- Claim C4 witness: the one-shot disable at a concrete engine stopping on its
armed `once` breakpoint (adapter id 9). -/
theorem c4_witness :
    sampleStopEvent.breakpointId = some 9
    ∧ sampleOnceEngine.breakpoints.find? (fun b => b.id == some 9)
        = some { index := 0, id := some 9, path := some "/a.c", line := some 7,
                 state := BreakpointState.ONCE }
    ∧ (∃ p : Engine × List Action,
        onStopped sampleOnceEngine sampleStopEvent (Except.ok none) = Except.ok p
        ∧ p.1.breakpoints
            = sampleOnceEngine.breakpoints.map (fun b =>
                if b.index == 0 then { b with state := BreakpointState.DISABLED } else b)
        ∧ p.2.head? = some Action.resetAllBreakpoints) := by
  refine ⟨rfl, rfl, ⟨_, rfl, ?_, ?_⟩⟩
  · exact (c4_once_disabled sampleOnceEngine sampleStopEvent (Except.ok none) 9
      { index := 0, id := some 9, path := some "/a.c", line := some 7,
        state := BreakpointState.ONCE } _ _ rfl rfl rfl rfl).1
  · exact (c4_once_disabled sampleOnceEngine sampleStopEvent (Except.ok none) 9
      { index := 0, id := some 9, path := some "/a.c", line := some 7,
        state := BreakpointState.ONCE } _ _ rfl rfl rfl rfl).2

end NuclideCli
